import Mathlib

/-!
# Verification of the sleep-art-gallery generative rendering engine

Shallow embedding of `js/art-generator.js` (class `SleepArtGenerator`).

Modelling conventions:
* JavaScript 32-bit integer/bitwise arithmetic is modelled on `Nat` with an
  explicit `% 4294967296`; the bit pattern of a JS int32 value is exactly the
  corresponding `Nat < 2^32`.
* JavaScript floating point numbers appearing in the art parameters are
  modelled as exact rationals `ℚ` (all PRNG outputs are dyadic rationals
  `v / 2^32` that doubles represent exactly); `NaN`-producing paths
  (`parseInt` failure, invalid `Date`) are modelled with `Option`, where
  `none` is `NaN`.
* The mutable canvas is modelled by the trace of drawing operations each
  layer issues: every random or data-derived parameter of a drawn shape is
  recorded in a `DrawOp`.  Transcendental quantities (the sine curves of the
  aurora layer, angles that are multiples of `π`) are determined by the
  recorded rational parameters, so trace equality captures pixel equality.
-/

namespace SleepArt

/-- Constant `2^32`, the modulus of all JS 32-bit wraparound arithmetic. -/
def U32 : ℕ := 4294967296

/-- Bit pattern of `seed | 0`: a JS number coerced to int32, viewed as the
`Nat < 2^32` with the same 32 bits. -/
def toUint32 (n : ℤ) : ℕ := (n % (4294967296 : ℤ)).toNat

/-- The state advance of `createRandom`'s closure:
`s = (s + 0x6d2b79f5) | 0` (32-bit wraparound addition). -/
def mulberryStep (s : ℕ) : ℕ := (s + 0x6d2b79f5) % 4294967296

/-- The output scrambling of `createRandom` evaluated at the advanced state:
`let t = Math.imul(s ^ (s >>> 15), 1 | s);
 t = (t + Math.imul(t ^ (t >>> 7), 61 | t)) ^ t;
 return ((t ^ (t >>> 14)) >>> 0)` (before the division by `4294967296`). -/
def mulberryOut (s : ℕ) : ℕ :=
  let t1 := ((s ^^^ (s >>> 15)) * (1 ||| s)) % 4294967296
  let t2 := ((t1 + ((t1 ^^^ (t1 >>> 7)) * (61 ||| t1)) % 4294967296) % 4294967296) ^^^ t1
  t2 ^^^ (t2 >>> 14)

/-- One call of the function returned by `createRandom`: advances the state
and returns the float `((t ^ (t >>> 14)) >>> 0) / 4294967296` together with
the new state. -/
def randNext (s : ℕ) : ℚ × ℕ :=
  let s' := mulberryStep s
  ((mulberryOut s' : ℚ) / 4294967296, s')

/-- Source `createRandom(seed)`: the initial PRNG state is `seed | 0`. -/
def createRandom (seed : ℤ) : ℕ := toUint32 seed

/-- PRNG state after `n` draws from `createRandom seed`. -/
def randStateAfter (seed : ℤ) (n : ℕ) : ℕ := mulberryStep^[n] (createRandom seed)

/-- The value returned by the `(n+1)`-st draw (0-indexed draw `n`). -/
def nthRand (seed : ℤ) (n : ℕ) : ℚ :=
  (mulberryOut (randStateAfter seed (n + 1)) : ℚ) / 4294967296

/-- Transcription of the *specification's* wording of the algorithm
(spec §4.1): state advances by adding `0x6D2B79F5` with 32-bit wraparound;
`t = (s XOR (s >>> 15))` multiplied (32-bit wraparound) by `(s OR 1)`;
then `t = (t + (t XOR (t >>> 7)) * (t OR 61)` with 32-bit wraparound`) XOR t`;
the returned value is `(t XOR (t >>> 14)) >>> 0`, divided by `2^32`. -/
def mulberrySpecDraw (s : ℕ) : ℚ × ℕ :=
  let s' := (s + 0x6D2B79F5) % 2 ^ 32
  let t := ((s' ^^^ (s' >>> 15)) * (s' ||| 1)) % 2 ^ 32
  let t' := ((t + ((t ^^^ (t >>> 7)) * (t ||| 61)) % 2 ^ 32) % 2 ^ 32) ^^^ t
  (((t' ^^^ (t' >>> 14)) : ℚ) / 2 ^ 32, s')

/-! ## Color utilities (`lerpColor`, `withAlpha`) -/

/-- Value of a hexadecimal digit, as used by JS `parseInt(·, 16)`. -/
def hexDigit (c : Char) : Option ℕ :=
  if '0' ≤ c ∧ c ≤ '9' then some (c.toNat - '0'.toNat)
  else if 'a' ≤ c ∧ c ≤ 'f' then some (c.toNat - 'a'.toNat + 10)
  else if 'A' ≤ c ∧ c ≤ 'F' then some (c.toNat - 'A'.toNat + 10)
  else none

/-- Accumulate the longest prefix of hex digits; `none` while no digit seen. -/
def hexAccum : List Char → Option ℕ → Option ℕ
  | [], acc => acc
  | c :: cs, acc =>
    match hexDigit c with
    | some d => hexAccum cs (some ((acc.getD 0) * 16 + d))
    | none => acc

/-- JS `parseInt(str, 16)`: skip leading whitespace, optional sign, optional
`0x`/`0X` prefix, then the longest prefix of hex digits; `NaN` (here `none`)
when no digit is consumed. -/
def parseIntHex (str : String) : Option ℤ :=
  let cs := str.data.dropWhile (fun c => c = ' ' ∨ c = '\t' ∨ c = '\n' ∨ c = '\r')
  let (neg, cs) : Bool × List Char :=
    match cs with
    | '-' :: rest => (true, rest)
    | '+' :: rest => (false, rest)
    | _ => (false, cs)
  let cs :=
    match cs with
    | '0' :: 'x' :: rest => rest
    | '0' :: 'X' :: rest => rest
    | _ => cs
  match hexAccum cs none with
  | some n => some (if neg then -(n : ℤ) else (n : ℤ))
  | none => none

/-- JS `String.prototype.slice(a, b)` for `0 ≤ a ≤ b`. -/
def jsSlice (s : String) (a b : ℕ) : String :=
  ⟨(s.data.drop a).take (b - a)⟩

/-- JS `Math.round` on a (non-`NaN`) number: round half toward `+∞`. -/
def jsRound (x : ℚ) : ℤ := ⌊x + 1 / 2⌋

/-- JS `Math.round(r1 + (r2 - r1) * t)` with `NaN` (`none`) propagation. -/
def lerpChannel (a b : Option ℤ) (t : ℚ) : Option ℤ :=
  match a, b with
  | some x, some y => some (jsRound ((x : ℚ) + ((y : ℚ) - (x : ℚ)) * t))
  | _, _ => none

/-- The `rgb(...)` / `rgba(...)` result strings of the color utilities,
modelled structurally; a `none` channel is the JS `NaN` that gets
interpolated into the template literal. -/
inductive ColorStr where
  | rgb (r g b : Option ℤ)
  | rgba (r g b : Option ℤ) (a : ℚ)
deriving DecidableEq

/-- Source `lerpColor(color1, color2, t)`: parse the three channel substrings of
each `#RRGGBB` string with `parseInt(·, 16)`, linearly interpolate each
channel, round, and return the `rgb(r, g, b)` string. -/
def lerpColor (color1 color2 : String) (t : ℚ) : ColorStr :=
  let r1 := parseIntHex (jsSlice color1 1 3)
  let g1 := parseIntHex (jsSlice color1 3 5)
  let b1 := parseIntHex (jsSlice color1 5 7)
  let r2 := parseIntHex (jsSlice color2 1 3)
  let g2 := parseIntHex (jsSlice color2 3 5)
  let b2 := parseIntHex (jsSlice color2 5 7)
  ColorStr.rgb (lerpChannel r1 r2 t) (lerpChannel g1 g2 t) (lerpChannel b1 b2 t)

/-- Source `withAlpha(hex, alpha)`: parse the three channel substrings and return
the `rgba(r, g, b, alpha)` string. -/
def withAlpha (hex : String) (alpha : ℚ) : ColorStr :=
  ColorStr.rgba (parseIntHex (jsSlice hex 1 3)) (parseIntHex (jsSlice hex 3 5))
    (parseIntHex (jsSlice hex 5 7)) alpha

/-! ## Palettes and palette selection -/

/-- Source `PALETTES.serene` (bedtime up to 22:00, cool blues). -/
def serene : List String :=
  ["#1a1a4e", "#2d2b7f", "#3f51b5", "#7986cb", "#c5cae9",
   "#4fc3f7", "#81d4fa", "#b3e5fc"]

/-- Source `PALETTES.twilight` (22:00 to midnight). -/
def twilight : List String :=
  ["#1a0a3e", "#4a148c", "#7b1fa2", "#ab47bc", "#ce93d8",
   "#00bcd4", "#26c6da", "#80deea"]

/-- Source `PALETTES.midnight` (midnight to 2:00). -/
def midnight : List String :=
  ["#1a0a2e", "#880e4f", "#c62828", "#e91e63", "#f06292",
   "#ff7043", "#ffab91", "#ffd54f"]

/-- Source `PALETTES.latenight` (after 2:00, gold and amber). -/
def latenight : List String :=
  ["#1a0f05", "#4e342e", "#bf360c", "#e65100", "#ff8f00",
   "#ffc107", "#ffecb3", "#fff8e1"]

/-- JS `x >= c` where `x` is `new Date(...).getHours()`: every comparison
with `NaN` (`none`) is false. -/
def jsGe (x : Option ℤ) (c : ℤ) : Bool :=
  match x with
  | some v => c ≤ v
  | none => false

/-- JS `x < c` with `NaN` comparing false. -/
def jsLt (x : Option ℤ) (c : ℤ) : Bool :=
  match x with
  | some v => v < c
  | none => false

/-- Source `selectPalette(bedtimeISO)`.  The call `new Date(bedtimeISO).getHours()`
is modelled by its result: the local hour-of-day `some h` (`0 ≤ h ≤ 23`) for
a parsable timestamp, `none` (`NaN`) for a malformed one.  The branch
structure is the source's:
`if (hour >= 20 && hour < 22) return serene;
 if (hour >= 22 || hour < 0) return twilight;
 if (hour >= 0 && hour < 2) return midnight;
 return latenight;` -/
def selectPalette (hour : Option ℤ) : List String :=
  if jsGe hour 20 ∧ jsLt hour 22 then serene
  else if jsGe hour 22 ∨ jsLt hour 0 then twilight
  else if jsGe hour 0 ∧ jsLt hour 2 then midnight
  else latenight

/-! ## Metric calculator (lines 131–137 of `generate`) -/

/-- Source `quality = Math.max(0, 1 - Math.abs(duration - 7.5) / 5)`. -/
def qualityOf (duration : ℚ) : ℚ := max 0 (1 - |duration - 7.5| / 5)

/-- Source `complexity = Math.min(1, duration / 10)`. -/
def complexityOf (duration : ℚ) : ℚ := min 1 (duration / 10)

/-! ## Drawing operations

Each constructor records one shape painted on the canvas, carrying every
random or data-derived parameter the source feeds into it.  Transcendental
quantities are functions of the recorded fields: an `auroraCurve`'s sampled
path is determined by `(amplitude, frequency, phase01, yOffset)` (the phase
is `phase01 * 2π`), a `spoke`'s rotation is `2π·i/symmetry`, a
`rainbowSegment`'s arc and hue are determined by its index `i` out of 36. -/
inductive DrawOp where
  /-- Main background radial gradient (`palette[1] → palette[0] → #050510`). -/
  | bgGradient (cx cy radius : ℚ) (c0 c1 : String)
  /-- Second, fainter background gradient (`withAlpha(palette[2], 0.15)`). -/
  | bgOverlay (cx cy radius : ℚ) (c : String)
  /-- One filled aurora curve. -/
  | auroraCurve (amplitude frequency phase01 yOffset : ℚ) (colorIdx : ℕ)
      (color : String) (alphaTop : ℚ)
  /-- One bokeh orb. -/
  | orb (x y radius : ℚ) (color : String) (innerAlpha : ℚ)
  /-- One mandala spoke: Bézier stroke plus its tip dot. -/
  | spoke (i : ℕ) (lineLen : ℚ) (color : String) (cp1x cp2x lineWidth tipRadius : ℚ)
  /-- One concentric mandala ring. -/
  | ring (radius : ℚ) (color : String) (alpha lineWidth : ℚ)
  /-- One starfield dot; `sparkled` records whether the `rand() > 0.85` test
  added the four-point cross glow (whose geometry `x, y, size * 4` and
  opacity `brightness * 0.2` are functions of the recorded fields). -/
  | star (x y size brightness : ℚ) (sparkled : Bool)
  /-- One gold streak glow (streak ≥ 3). -/
  | goldGlow (x y size : ℚ)
  /-- The centered gold ring of the streak ≥ 7 effect. -/
  | streakRing (radius : ℚ)
  /-- One of the 36 rainbow ring segments (streak ≥ 7). -/
  | rainbowSegment (i : ℕ) (radius : ℚ)
  /-- The centered rotated diamond (streak ≥ 14). -/
  | diamond (size : ℚ)
  /-- The final vignette gradient fill. -/
  | vignetteFill (w h : ℚ)
deriving DecidableEq

/-- A `for (let i = 0; ...; i++)` loop body run `k` times starting at index
`i`, threading the PRNG state and concatenating emitted operations in
iteration order. -/
def drawLoop (f : ℕ → ℕ → List DrawOp × ℕ) : ℕ → ℕ → ℕ → List DrawOp × ℕ
  | 0, _, s => ([], s)
  | k + 1, i, s =>
    let (ops, s1) := f i s
    let (rest, s2) := drawLoop f k (i + 1) s1
    (ops ++ rest, s2)

/-- Layer 1, `drawBackground(ctx, w, h, palette, rand)`. -/
def drawBackground (w h : ℚ) (palette : List String) (s : ℕ) : List DrawOp × ℕ :=
  let (r1, s) := randNext s
  let cx := w * (0.3 + r1 * 0.4)
  let (r2, s) := randNext s
  let cy := h * (0.3 + r2 * 0.4)
  let radius := max w h * 0.8
  let (r3, s) := randNext s
  let cx2 := w * r3
  let (r4, s) := randNext s
  let cy2 := h * r4
  ([DrawOp.bgGradient cx cy radius (palette.getD 1 "#1a1a4e") (palette.getD 0 "#0a0a2e"),
    DrawOp.bgOverlay cx2 cy2 (radius * 0.6) (palette.getD 2 "#3f51b5")], s)

/-- One iteration of the aurora-curve loop (five draws, in source order:
amplitude, frequency, phase, yOffset, color index). -/
def auroraIter (h : ℚ) (palette : List String) (quality : ℚ) (_i : ℕ) (s : ℕ) :
    List DrawOp × ℕ :=
  let (r1, s) := randNext s
  let amplitude := h * (0.05 + r1 * 0.15)
  let (r2, s) := randNext s
  let frequency := 1 + r2 * 3
  let (r3, s) := randNext s
  let (r4, s) := randNext s
  let yOffset := h * (0.2 + r4 * 0.6)
  let (r5, s) := randNext s
  let colorIdx := if quality > 0.7 then (⌊r5 * 3⌋).toNat + 2
    else (⌊r5 * (palette.length : ℚ)⌋).toNat
  ([DrawOp.auroraCurve amplitude frequency r3 yOffset colorIdx
      (palette.getD colorIdx (palette.getD 0 "")) (0.08 + quality * 0.06)], s)

/-- Layer 2, `drawAurora(ctx, w, h, palette, rand, complexity, quality)`:
`3 + Math.floor(complexity * 4)` curves. -/
def drawAurora (w h : ℚ) (palette : List String) (complexity quality : ℚ) (s : ℕ) :
    List DrawOp × ℕ :=
  let numCurves := (3 + ⌊complexity * 4⌋).toNat
  drawLoop (auroraIter h palette quality) numCurves 0 s

/-- One iteration of the orb loop (five draws: x, y, radius, color,
inner opacity). -/
def orbIter (w h : ℚ) (palette : List String) (quality : ℚ) (_i : ℕ) (s : ℕ) :
    List DrawOp × ℕ :=
  let (r1, s) := randNext s
  let x := r1 * w
  let (r2, s) := randNext s
  let y := r2 * h
  let (r3, s) := randNext s
  let radius := (10 + r3 * 40) * (0.5 + quality * 0.5) * (w / 400)
  let (r4, s) := randNext s
  let color := palette.getD (⌊r4 * (palette.length : ℚ)⌋).toNat ""
  let (r5, s) := randNext s
  ([DrawOp.orb x y radius color (0.15 + r5 * 0.15)], s)

/-- Layer 3, `drawOrbs(ctx, w, h, palette, rand, duration, quality)`:
`5 + Math.floor(duration * 2.5)` orbs. -/
def drawOrbs (w h : ℚ) (palette : List String) (duration quality : ℚ) (s : ℕ) :
    List DrawOp × ℕ :=
  let numOrbs := (5 + ⌊duration * 2.5⌋).toNat
  drawLoop (orbIter w h palette quality) numOrbs 0 s

/-- One spoke of the mandala (six draws: line length, color, two control
point jitters, line width, tip radius). -/
def spokeIter (maxRadius : ℚ) (palette : List String) (i : ℕ) (s : ℕ) :
    List DrawOp × ℕ :=
  let (r1, s) := randNext s
  let lineLen := maxRadius * (0.5 + r1 * 0.5)
  let (r2, s) := randNext s
  let color := palette.getD (2 + (⌊r2 * ((palette.length : ℚ) - 2)⌋).toNat) ""
  let (r3, s) := randNext s
  let cp1x := lineLen * 0.3 * (r3 - 0.5)
  let (r4, s) := randNext s
  let cp2x := lineLen * 0.3 * (r4 - 0.5)
  let (r5, s) := randNext s
  let (r6, s) := randNext s
  ([DrawOp.spoke i lineLen color cp1x cp2x (1 + r5 * 1.5) (2 + r6 * 4)], s)

/-- One concentric ring of the mandala (three draws: radius jitter, color,
line width). -/
def ringIter (maxRadius quality : ℚ) (palette : List String) (ring : ℕ) (s : ℕ) :
    List DrawOp × ℕ :=
  let (r1, s) := randNext s
  let ringRadius := maxRadius * (0.2 + (ring : ℚ) * 0.2) * (0.8 + r1 * 0.4)
  let (r2, s) := randNext s
  let ringColor := palette.getD (⌊r2 * (palette.length : ℚ)⌋).toNat ""
  let (r3, s) := randNext s
  ([DrawOp.ring ringRadius ringColor (0.15 + quality * 0.1) (0.5 + r3 * 1)], s)

/-- Layer 4, `drawGeometry(ctx, w, h, palette, rand, quality)`:
`4 + Math.floor(quality * 8)` spokes then 3 rings. -/
def drawGeometry (w h : ℚ) (palette : List String) (quality : ℚ) (s : ℕ) :
    List DrawOp × ℕ :=
  let symmetry := (4 + ⌊quality * 8⌋).toNat
  let maxRadius := min w h * (0.15 + quality * 0.1)
  let (spokes, s) := drawLoop (spokeIter maxRadius palette) symmetry 0 s
  let (rings, s) := drawLoop (ringIter maxRadius quality palette) 3 0 s
  (spokes ++ rings, s)

/-- One star (five draws: x, y, size, brightness, sparkle test
`rand() > 0.85`). -/
def starIter (w h : ℚ) (_i : ℕ) (s : ℕ) : List DrawOp × ℕ :=
  let (r1, s) := randNext s
  let x := r1 * w
  let (r2, s) := randNext s
  let y := r2 * h
  let (r3, s) := randNext s
  let size := 0.5 + r3 * 2
  let (r4, s) := randNext s
  let brightness := 0.3 + r4 * 0.7
  let (r5, s) := randNext s
  ([DrawOp.star x y size brightness (decide (r5 > 0.85))], s)

/-- Layer 5, `drawStars(ctx, w, h, rand, complexity)`:
`30 + Math.floor(complexity * 120)` stars. -/
def drawStars (w h : ℚ) (complexity : ℚ) (s : ℕ) : List DrawOp × ℕ :=
  let numStars := (30 + ⌊complexity * 120⌋).toNat
  drawLoop (starIter w h) numStars 0 s

/-- One gold glow (three draws: x, y, size). -/
def glowIter (w h : ℚ) (_i : ℕ) (s : ℕ) : List DrawOp × ℕ :=
  let (r1, s) := randNext s
  let x := r1 * w
  let (r2, s) := randNext s
  let y := r2 * h
  let (r3, s) := randNext s
  ([DrawOp.goldGlow x y (20 + r3 * 30)], s)

/-- One rainbow ring segment (one draw: radius jitter). -/
def rainbowIter (radius : ℚ) (i : ℕ) (s : ℕ) : List DrawOp × ℕ :=
  let (r1, s) := randNext s
  ([DrawOp.rainbowSegment i (radius * (0.95 + r1 * 0.1))], s)

/-- Layer 6, `drawStreakEffect(ctx, w, h, palette, rand, streak)`:
`Math.min(streak, 20)` gold glows when `streak ≥ 3`, the centered ring plus
36 rainbow segments when `streak ≥ 7`, the rotated diamond when
`streak ≥ 14`.  (`palette` is accepted but unused by the source.) -/
def drawStreakEffect (w h : ℚ) (_palette : List String) (streak : ℕ) (s : ℕ) :
    List DrawOp × ℕ :=
  let (glows, s) :=
    if streak ≥ 3 then drawLoop (glowIter w h) (min streak 20) 0 s else ([], s)
  let (ringOps, s) :=
    if streak ≥ 7 then
      let radius := min w h * 0.35
      let (segs, s1) := drawLoop (rainbowIter radius) 36 0 s
      (DrawOp.streakRing radius :: segs, s1)
    else ([], s)
  let diamondOps :=
    if streak ≥ 14 then [DrawOp.diamond (min w h * 0.06)] else []
  (glows ++ ringOps ++ diamondOps, s)

/-- Source `drawVignette(ctx, w, h)`: no random draws, one gradient fill. -/
def drawVignette (w h : ℚ) : List DrawOp :=
  [DrawOp.vignetteFill w h]

/-! ## The render orchestrator `generate` -/

/-- A sleep record as handed to `generate`.  `bedtime` carries the value of
`new Date(record.bedtime).getHours()` for the stored ISO string: the local
hour-of-day, or `none` when the string does not parse (`getHours()` is then
`NaN`). -/
structure SleepRecord where
  id : String
  bedtime : Option ℤ
  wakeTime : String
  duration : ℚ
  artSeed : ℤ

/-- The `options` of `generate`: `const streak = options.streak || 0`. -/
structure RenderOptions where
  streak : ℕ := 0

/-- The full trace of one `generate` call, one field per pipeline layer, in
execution order.  Concatenating the fields (`RenderTrace.allOps`) gives the
exact sequence of drawing operations issued to the canvas. -/
structure RenderTrace where
  background : List DrawOp
  aurora : List DrawOp
  orbs : List DrawOp
  geometry : List DrawOp
  stars : List DrawOp
  streakFx : List DrawOp
  vignette : List DrawOp
deriving DecidableEq

/-- The flat sequence of drawing operations of a render. -/
def RenderTrace.allOps (t : RenderTrace) : List DrawOp :=
  t.background ++ t.aurora ++ t.orbs ++ t.geometry ++ t.stars ++ t.streakFx ++ t.vignette

/-- Source `SleepArtGenerator.generate(canvas, record, options)`: seeds the PRNG
from `record.artSeed`, computes palette / quality / complexity, then runs
the seven layers in order on the shared PRNG state.  Layer 6 runs only when
`streak >= 3`. -/
def generate (w h : ℚ) (record : SleepRecord) (options : RenderOptions) : RenderTrace :=
  let streak := options.streak
  let s0 := createRandom record.artSeed
  let duration := record.duration
  let palette := selectPalette record.bedtime
  let quality := qualityOf duration
  let complexity := complexityOf duration
  let (bg, s1) := drawBackground w h palette s0
  let (au, s2) := drawAurora w h palette complexity quality s1
  let (ob, s3) := drawOrbs w h palette duration quality s2
  let (ge, s4) := drawGeometry w h palette quality s3
  let (st, s5) := drawStars w h complexity s4
  let fx := if streak ≥ 3 then (drawStreakEffect w h palette streak s5).1 else []
  ⟨bg, au, ob, ge, st, fx, drawVignette w h⟩

/-- PRNG state once layers 1–5 have consumed their draws (the state layer 6
starts from). -/
def stateAfterLayers15 (w h : ℚ) (record : SleepRecord) : ℕ :=
  let s0 := createRandom record.artSeed
  let duration := record.duration
  let palette := selectPalette record.bedtime
  let quality := qualityOf duration
  let complexity := complexityOf duration
  let (_, s1) := drawBackground w h palette s0
  let (_, s2) := drawAurora w h palette complexity quality s1
  let (_, s3) := drawOrbs w h palette duration quality s2
  let (_, s4) := drawGeometry w h palette quality s3
  let (_, s5) := drawStars w h complexity s4
  s5

/-! ## Observation predicates on traces -/

/-- Is this operation a bokeh orb? -/
def isOrbOp : DrawOp → Bool
  | .orb .. => true
  | _ => false

/-- Number of bokeh orbs in an operation list. -/
def countOrbOps (l : List DrawOp) : ℕ := l.countP isOrbOp

/-- Is this operation a gold streak glow? -/
def isGoldGlowOp : DrawOp → Bool
  | .goldGlow .. => true
  | _ => false

/-- Is this operation part of the streak rainbow ring (base ring or one of
the 36 segments)? -/
def isRainbowOp : DrawOp → Bool
  | .streakRing _ => true
  | .rainbowSegment .. => true
  | _ => false

/-- Is this operation the streak diamond? -/
def isDiamondOp : DrawOp → Bool
  | .diamond _ => true
  | _ => false

/-- Operations that are not part of any streak effect. -/
def notStreakOp (op : DrawOp) : Bool :=
  !(isGoldGlowOp op || isRainbowOp op || isDiamondOp op)

/-- A gold glow appears somewhere in the render. -/
def hasGoldGlow (t : RenderTrace) : Bool := t.allOps.any isGoldGlowOp

/-- The rainbow ring appears somewhere in the render. -/
def hasRainbowRing (t : RenderTrace) : Bool := t.allOps.any isRainbowOp

/-- The streak diamond appears somewhere in the render. -/
def hasDiamond (t : RenderTrace) : Bool := t.allOps.any isDiamondOp

/-! ## Concrete witness data -/

/-- A concrete sleep record. -/
def recW1 : SleepRecord :=
  ⟨"2024-01-15", some 23, "2024-01-15T07:30:00", 7.5, 123456789⟩

/-- The same sleep metrics as `recW1` with a different `id` and `wakeTime`. -/
def recW2 : SleepRecord :=
  ⟨"2024-02-02", some 23, "2024-02-02T06:45:00", 7.5, 123456789⟩

/-- A record with an eight-hour duration. -/
def recDur8 : SleepRecord :=
  ⟨"2024-03-03", some 22, "2024-03-03T07:00:00", 8, 42⟩

/-! ## Basic lemmas -/

lemma mulberryOut_lt (s : ℕ) : mulberryOut s < 4294967296 := by
  have h32 : (4294967296 : ℕ) = 2 ^ 32 := by norm_num
  set A := ((s ^^^ (s >>> 15)) * (1 ||| s)) % 4294967296 with hA
  set B := (A + ((A ^^^ (A >>> 7)) * (61 ||| A)) % 4294967296) % 4294967296 with hB
  have h1 : A < 2 ^ 32 := lt_of_lt_of_eq (Nat.mod_lt _ (by norm_num)) h32
  have h2 : B < 2 ^ 32 := lt_of_lt_of_eq (Nat.mod_lt _ (by norm_num)) h32
  have h3 : B ^^^ A < 2 ^ 32 := Nat.xor_lt_two_pow h2 h1
  have hle : (B ^^^ A) >>> 14 ≤ B ^^^ A := by
    calc (B ^^^ A) >>> 14 = (B ^^^ A) / 2 ^ 14 := Nat.shiftRight_eq_div_pow _ 14
    _ ≤ B ^^^ A := Nat.div_le_self _ _
  have h4 : (B ^^^ A) >>> 14 < 2 ^ 32 := lt_of_le_of_lt hle h3
  exact lt_of_lt_of_eq (Nat.xor_lt_two_pow h3 h4) h32.symm

lemma mulberrySpecDraw_eq (s : ℕ) :
    mulberrySpecDraw s = ((mulberryOut (mulberryStep s) : ℚ) / 4294967296, mulberryStep s) := by
  unfold mulberrySpecDraw mulberryOut mulberryStep
  norm_num [Nat.lor_comm]

/-- **C2** — For every int32 seed and every number `n` of prior draws, the
next draw is exactly the spec's fixed algorithm applied to the current
state (state advance by `0x6D2B79F5` with 32-bit wraparound, the two
xor-shift-multiply scrambles with 32-bit wraparound, final
`(t ^ (t >>> 14)) >>> 0` divided by `2^32`), and the returned value lies in
`[0, 1)`. -/
theorem mulberry_follows_spec (seed : ℤ) (n : ℕ) :
    nthRand seed n = (mulberrySpecDraw (randStateAfter seed n)).1 ∧
    randStateAfter seed (n + 1) = (mulberrySpecDraw (randStateAfter seed n)).2 ∧
    0 ≤ nthRand seed n ∧ nthRand seed n < 1 := by
  have hstep : randStateAfter seed (n + 1) = mulberryStep (randStateAfter seed n) := by
    unfold randStateAfter
    exact Function.iterate_succ_apply' mulberryStep n (createRandom seed)
  refine ⟨?_, ?_, ?_, ?_⟩
  · rw [mulberrySpecDraw_eq, nthRand, hstep]
  · rw [mulberrySpecDraw_eq, hstep]
  · unfold nthRand
    exact div_nonneg (Nat.cast_nonneg _) (by norm_num)
  · unfold nthRand
    rw [div_lt_one (by norm_num)]
    exact_mod_cast mulberryOut_lt _

/-- **C4** — The quality metric is `max(0, 1 - |duration - 7.5| / 5)`;
it is `1` at `7.5`, `0` at `2.5` and `12.5`, and strictly decreases as
`|duration - 7.5|` increases up to the clamp at `0`. -/
theorem quality_metric (d1 d2 : ℚ)
    (h12 : |d1 - 7.5| < |d2 - 7.5|) (h5 : |d2 - 7.5| ≤ 5) :
    (∀ d : ℚ, qualityOf d = max 0 (1 - |d - 7.5| / 5)) ∧
    qualityOf 7.5 = 1 ∧ qualityOf 2.5 = 0 ∧ qualityOf 12.5 = 0 ∧
    qualityOf d2 < qualityOf d1 := by
  have e2 : qualityOf d2 = 1 - |d2 - 7.5| / 5 := by
    unfold qualityOf
    rw [max_eq_right]
    linarith
  have e1 : qualityOf d1 = 1 - |d1 - 7.5| / 5 := by
    unfold qualityOf
    rw [max_eq_right]
    linarith
  refine ⟨fun d => rfl, ?_, ?_, ?_, ?_⟩
  · norm_num [qualityOf]
  · norm_num [qualityOf, abs_of_nonpos]
  · norm_num [qualityOf, abs_of_nonneg]
  · rw [e1, e2]
    linarith

/-- Witness for `quality_metric` at `d1 = 8`, `d2 = 9`. -/
theorem quality_metric_witness :
    |(8 : ℚ) - 7.5| < |(9 : ℚ) - 7.5| ∧ qualityOf 9 < qualityOf 8 :=
  ⟨by norm_num [abs_of_pos], (quality_metric 8 9 (by norm_num [abs_of_pos])
    (by norm_num [abs_of_pos])).2.2.2.2⟩

/-- **C5** — The complexity metric is `min(1, duration / 10)`; for a
(nonnegative) sleep duration it lies in `[0, 1]`, with
`complexity(10) = 1`, `complexity(20) = 1` (saturated) and
`complexity(5) = 0.5`. -/
theorem complexity_metric (d : ℚ) (hd : 0 ≤ d) :
    (∀ x : ℚ, complexityOf x = min 1 (x / 10)) ∧
    0 ≤ complexityOf d ∧ complexityOf d ≤ 1 ∧
    complexityOf 10 = 1 ∧ complexityOf 20 = 1 ∧ complexityOf 5 = 0.5 := by
  refine ⟨fun x => rfl, ?_, min_le_left _ _, ?_, ?_, ?_⟩
  · exact le_min (by norm_num) (by positivity)
  · norm_num [complexityOf]
  · norm_num [complexityOf]
  · norm_num [complexityOf]

/-- Witness for `complexity_metric` at `d = 3`. -/
theorem complexity_metric_witness :
    (0 : ℚ) ≤ 3 ∧ 0 ≤ complexityOf 3 ∧ complexityOf 3 ≤ 1 :=
  ⟨by norm_num, (complexity_metric 3 (by norm_num)).2.1,
   (complexity_metric 3 (by norm_num)).2.2.1⟩

/-- **C6** — For a bedtime whose local hour is `h ∈ [0, 23]`,
`selectPalette` returns serene iff `h ∈ [20, 22)`, twilight iff
`h ∈ [22, 24)`, midnight iff `h ∈ [0, 2)`, latenight otherwise
(`h ∈ [2, 20)`); in particular hour 21 gives serene, 23 twilight,
1 midnight, 10 latenight. -/
theorem selectPalette_hours (h : ℤ) (h0 : 0 ≤ h) (h23 : h ≤ 23) :
    ((selectPalette (some h) = serene ↔ 20 ≤ h ∧ h < 22) ∧
     (selectPalette (some h) = twilight ↔ 22 ≤ h ∧ h < 24) ∧
     (selectPalette (some h) = midnight ↔ 0 ≤ h ∧ h < 2) ∧
     (selectPalette (some h) = latenight ↔ 2 ≤ h ∧ h < 20)) ∧
    selectPalette (some 21) = serene ∧ selectPalette (some 23) = twilight ∧
    selectPalette (some 1) = midnight ∧ selectPalette (some 10) = latenight := by
  refine ⟨?_, by decide, by decide, by decide, by decide⟩
  interval_cases h <;> decide

/-- Witness for `selectPalette_hours` at hour 21. -/
theorem selectPalette_hours_witness :
    (0 : ℤ) ≤ 21 ∧ (21 : ℤ) ≤ 23 ∧ selectPalette (some 21) = serene := by
  refine ⟨by decide, by decide, ?_⟩
  exact ((selectPalette_hours 21 (by decide) (by decide)).1.1).mpr (by decide)

/-- **C10** — `selectPalette` is total: whatever `getHours()` returned
(any hour, or `NaN` for a malformed bedtime string, modelled as `none`),
the result is one of the four fixed palettes, and in the `NaN` case every
hour comparison is false so the latenight palette is returned. -/
theorem selectPalette_total (hour : Option ℤ) :
    (selectPalette hour = serene ∨ selectPalette hour = twilight ∨
     selectPalette hour = midnight ∨ selectPalette hour = latenight) ∧
    selectPalette none = latenight := by
  constructor
  · unfold selectPalette
    split_ifs <;> simp
  · rfl

lemma lerpChannel_none_left (b : Option ℤ) (t : ℚ) : lerpChannel none b t = none := by
  cases b <;> rfl

/-- **C3 counterexample** — On the malformed color `"#zzzzzz"` the channel
substrings parse to `NaN` (`none`), which propagates into the returned
string: the channels are *not* treated as zero. -/
theorem color_fallback_counterexample :
    lerpColor "#zzzzzz" "#000000" 0 = ColorStr.rgb none none none ∧
    lerpColor "#zzzzzz" "#000000" 0 ≠ ColorStr.rgb (some 0) (some 0) (some 0) ∧
    withAlpha "#zzzzzz" 1 = ColorStr.rgba none none none 1 ∧
    withAlpha "#zzzzzz" 1 ≠ ColorStr.rgba (some 0) (some 0) (some 0) 1 := by
  refine ⟨by decide, by decide, by decide, by decide⟩

/-- **C3 amended** — Both color utilities are total on arbitrary strings:
they always return an `rgb()` / `rgba()`-shaped string without raising.  A
channel substring that fails to parse as hexadecimal becomes `NaN`
(`none`), which propagates into the returned string's channel (it is not
replaced by zero). -/
theorem color_fallback_nan (c1 c2 hx : String) (t a : ℚ)
    (h1 : parseIntHex (jsSlice c1 1 3) = none)
    (hx1 : parseIntHex (jsSlice hx 1 3) = none) :
    (∀ (s1 s2 : String) (u : ℚ), ∃ r g b, lerpColor s1 s2 u = ColorStr.rgb r g b) ∧
    (∀ (s : String) (α : ℚ), ∃ r g b, withAlpha s α = ColorStr.rgba r g b α) ∧
    (∃ g b, lerpColor c1 c2 t = ColorStr.rgb none g b) ∧
    (∃ g b, withAlpha hx a = ColorStr.rgba none g b a) := by
  refine ⟨fun s1 s2 u => ⟨_, _, _, rfl⟩, fun s α => ⟨_, _, _, rfl⟩, ?_, ?_⟩
  · exact ⟨_, _, by simp only [lerpColor]; rw [h1, lerpChannel_none_left]⟩
  · exact ⟨_, _, by unfold withAlpha; rw [hx1]⟩

/-- Witness for `color_fallback_nan` on the malformed literal `"#zzzzzz"`. -/
theorem color_fallback_nan_witness :
    parseIntHex (jsSlice "#zzzzzz" 1 3) = none ∧
    (∃ g b, withAlpha "#zzzzzz" (1 / 2) = ColorStr.rgba none g b (1 / 2)) :=
  ⟨by decide, (color_fallback_nan "#zzzzzz" "#000000" "#zzzzzz" 0 (1 / 2)
    (by decide) (by decide)).2.2.2⟩

/-- **C1** — `generate` is a deterministic function of
`(artSeed, bedtime, duration, streak, width, height)`: two calls whose
records agree on seed, bedtime and duration (the `id` and `wakeTime`
fields may differ) and whose options agree on `streak` produce the same
per-layer traces and therefore the identical sequence of drawing
operations; no other source of non-determinism enters the pipeline. -/
theorem generate_deterministic (w h : ℚ) (r1 r2 : SleepRecord) (o1 o2 : RenderOptions)
    (hseed : r1.artSeed = r2.artSeed) (hbed : r1.bedtime = r2.bedtime)
    (hdur : r1.duration = r2.duration) (hstreak : o1.streak = o2.streak) :
    generate w h r1 o1 = generate w h r2 o2 ∧
    (generate w h r1 o1).allOps = (generate w h r2 o2).allOps := by
  obtain ⟨id1, b1, wk1, d1, sd1⟩ := r1
  obtain ⟨id2, b2, wk2, d2, sd2⟩ := r2
  obtain ⟨k1⟩ := o1
  obtain ⟨k2⟩ := o2
  dsimp only at hseed hbed hdur hstreak
  subst hseed
  subst hbed
  subst hdur
  subst hstreak
  exact ⟨rfl, rfl⟩

/-- Witness for `generate_deterministic`: `recW1` and `recW2` share
`(artSeed, bedtime, duration)` but differ in `id` and `wakeTime`. -/
theorem generate_deterministic_witness :
    recW1.id ≠ recW2.id ∧ recW1.wakeTime ≠ recW2.wakeTime ∧
    generate 400 300 recW1 ⟨5⟩ = generate 400 300 recW2 ⟨5⟩ :=
  ⟨by decide, by decide,
   (generate_deterministic 400 300 recW1 recW2 ⟨5⟩ ⟨5⟩ rfl rfl rfl rfl).1⟩

/-! ## Loop lemmas -/

lemma drawLoop_succ (f : ℕ → ℕ → List DrawOp × ℕ) (k i s : ℕ) :
    drawLoop f (k + 1) i s =
      ((f i s).1 ++ (drawLoop f k (i + 1) (f i s).2).1,
       (drawLoop f k (i + 1) (f i s).2).2) := by
  rcases hf : f i s with ⟨ops, s1⟩
  rcases hl : drawLoop f k (i + 1) s1 with ⟨rest, s2⟩
  simp [drawLoop, hf, hl]

lemma drawLoop_countP (p : DrawOp → Bool) (f : ℕ → ℕ → List DrawOp × ℕ) (c : ℕ)
    (hf : ∀ i s, ((f i s).1).countP p = c) :
    ∀ k i s, ((drawLoop f k i s).1).countP p = c * k := by
  intro k
  induction k with
  | zero => intro i s; simp [drawLoop]
  | succ n ih =>
    intro i s
    rw [drawLoop_succ]
    simp only [List.countP_append]
    rw [hf, ih]
    ring

lemma drawLoop_all (p : DrawOp → Bool) (f : ℕ → ℕ → List DrawOp × ℕ)
    (hf : ∀ i s, ((f i s).1).all p = true) :
    ∀ k i s, ((drawLoop f k i s).1).all p = true := by
  intro k
  induction k with
  | zero => intro i s; simp [drawLoop]
  | succ n ih =>
    intro i s
    rw [drawLoop_succ]
    simp only [List.all_append, Bool.and_eq_true]
    exact ⟨hf i s, ih (i + 1) _⟩

lemma drawLoop_length (f : ℕ → ℕ → List DrawOp × ℕ) (c : ℕ)
    (hf : ∀ i s, ((f i s).1).length = c) :
    ∀ k i s, ((drawLoop f k i s).1).length = c * k := by
  intro k
  induction k with
  | zero => intro i s; simp [drawLoop]
  | succ n ih =>
    intro i s
    rw [drawLoop_succ]
    simp only [List.length_append]
    rw [hf, ih]
    ring

lemma all_imp_any_eq_false {p q : DrawOp → Bool} (hpq : ∀ op, p op = true → q op = false)
    {l : List DrawOp} (hl : l.all p = true) : l.any q = false := by
  induction l with
  | nil => rfl
  | cons a l ih =>
    rw [List.all_cons, Bool.and_eq_true] at hl
    simp [List.any_cons, hpq a hl.1, ih hl.2]

lemma all_any_of_ne_nil {q : DrawOp → Bool} {l : List DrawOp} (hl : l.all q = true)
    (hne : l ≠ []) : l.any q = true := by
  cases l with
  | nil => exact absurd rfl hne
  | cons a l =>
    rw [List.all_cons, Bool.and_eq_true] at hl
    simp [List.any_cons, hl.1]

/-! ## Per-layer classification lemmas -/

lemma orbIter_count (w h : ℚ) (pal : List String) (q : ℚ) (i s : ℕ) :
    ((orbIter w h pal q i s).1).countP isOrbOp = 1 := rfl

lemma glowIter_gold (w h : ℚ) (i s : ℕ) :
    ((glowIter w h i s).1).all isGoldGlowOp = true := rfl

lemma glowIter_len (w h : ℚ) (i s : ℕ) :
    ((glowIter w h i s).1).length = 1 := rfl

lemma rainbowIter_rainbow (radius : ℚ) (i s : ℕ) :
    ((rainbowIter radius i s).1).all isRainbowOp = true := rfl

lemma notStreak_spec {op : DrawOp} (hop : notStreakOp op = true) :
    isGoldGlowOp op = false ∧ isRainbowOp op = false ∧ isDiamondOp op = false := by
  simp only [notStreakOp, Bool.not_eq_true', Bool.or_eq_false_iff] at hop
  exact ⟨hop.1.1, hop.1.2, hop.2⟩

lemma gold_not_rainbow : ∀ op, isGoldGlowOp op = true → isRainbowOp op = false := by
  intro op
  cases op <;> simp [isGoldGlowOp, isRainbowOp]

lemma gold_not_diamond : ∀ op, isGoldGlowOp op = true → isDiamondOp op = false := by
  intro op
  cases op <;> simp [isGoldGlowOp, isDiamondOp]

lemma rainbow_not_diamond : ∀ op, isRainbowOp op = true → isDiamondOp op = false := by
  intro op
  cases op <;> simp [isRainbowOp, isDiamondOp]

lemma drawBackground_notStreak (w h : ℚ) (pal : List String) (s : ℕ) :
    ((drawBackground w h pal s).1).all notStreakOp = true := rfl

lemma drawAurora_notStreak (w h : ℚ) (pal : List String) (c q : ℚ) (s : ℕ) :
    ((drawAurora w h pal c q s).1).all notStreakOp = true :=
  drawLoop_all notStreakOp (auroraIter h pal q) (fun _ _ => rfl) _ 0 s

lemma drawOrbs_notStreak (w h : ℚ) (pal : List String) (d q : ℚ) (s : ℕ) :
    ((drawOrbs w h pal d q s).1).all notStreakOp = true :=
  drawLoop_all notStreakOp (orbIter w h pal q) (fun _ _ => rfl) _ 0 s

lemma drawGeometry_notStreak (w h : ℚ) (pal : List String) (q : ℚ) (s : ℕ) :
    ((drawGeometry w h pal q s).1).all notStreakOp = true := by
  obtain ⟨k, s', e⟩ : ∃ k s', (drawGeometry w h pal q s).1 =
      (drawLoop (spokeIter (min w h * (0.15 + q * 0.1)) pal) k 0 s).1 ++
      (drawLoop (ringIter (min w h * (0.15 + q * 0.1)) q pal) 3 0 s').1 := ⟨_, _, rfl⟩
  rw [e, List.all_append]
  rw [drawLoop_all notStreakOp (spokeIter (min w h * (0.15 + q * 0.1)) pal)
      (fun _ _ => rfl) k 0 s,
    drawLoop_all notStreakOp (ringIter (min w h * (0.15 + q * 0.1)) q pal)
      (fun _ _ => rfl) 3 0 s']
  rfl

lemma drawStars_notStreak (w h : ℚ) (c : ℚ) (s : ℕ) :
    ((drawStars w h c s).1).all notStreakOp = true :=
  drawLoop_all notStreakOp (starIter w h) (fun _ _ => rfl) _ 0 s

lemma drawVignette_notStreak (w h : ℚ) :
    (drawVignette w h).all notStreakOp = true := rfl

/-- Any streak-effect-only observation on the full operation sequence of a
render reduces to the same observation on the layer-6 trace: layers 1–5 and
the vignette contain no streak-effect operations. -/
lemma generate_any_streakOnly (q : DrawOp → Bool)
    (hq : ∀ op, notStreakOp op = true → q op = false)
    (w h : ℚ) (r : SleepRecord) (o : RenderOptions) :
    ((generate w h r o).allOps).any q = ((generate w h r o).streakFx).any q := by
  obtain ⟨sa, e1⟩ : ∃ s, (generate w h r o).background =
      (drawBackground w h (selectPalette r.bedtime) s).1 := ⟨_, rfl⟩
  obtain ⟨sb, e2⟩ : ∃ s, (generate w h r o).aurora =
      (drawAurora w h (selectPalette r.bedtime) (complexityOf r.duration)
        (qualityOf r.duration) s).1 := ⟨_, rfl⟩
  obtain ⟨sc, e3⟩ : ∃ s, (generate w h r o).orbs =
      (drawOrbs w h (selectPalette r.bedtime) r.duration (qualityOf r.duration) s).1 :=
    ⟨_, rfl⟩
  obtain ⟨sd, e4⟩ : ∃ s, (generate w h r o).geometry =
      (drawGeometry w h (selectPalette r.bedtime) (qualityOf r.duration) s).1 := ⟨_, rfl⟩
  obtain ⟨se, e5⟩ : ∃ s, (generate w h r o).stars =
      (drawStars w h (complexityOf r.duration) s).1 := ⟨_, rfl⟩
  have e6 : (generate w h r o).vignette = drawVignette w h := rfl
  rw [RenderTrace.allOps, e1, e2, e3, e4, e5, e6]
  simp only [List.any_append]
  rw [all_imp_any_eq_false hq (drawBackground_notStreak w h _ sa),
    all_imp_any_eq_false hq (drawAurora_notStreak w h _ _ _ sb),
    all_imp_any_eq_false hq (drawOrbs_notStreak w h _ _ _ sc),
    all_imp_any_eq_false hq (drawGeometry_notStreak w h _ _ sd),
    all_imp_any_eq_false hq (drawStars_notStreak w h _ se),
    all_imp_any_eq_false hq (drawVignette_notStreak w h)]
  simp

/-! ## Streak-effect trace shapes at the claims' thresholds -/

lemma drawStreakEffect3 (w h : ℚ) (pal : List String) (s : ℕ) :
    (drawStreakEffect w h pal 3 s).1 = (drawLoop (glowIter w h) 3 0 s).1 ++ [] ++ [] := rfl

lemma drawStreakEffect7 (w h : ℚ) (pal : List String) (s : ℕ) :
    (drawStreakEffect w h pal 7 s).1 =
      (drawLoop (glowIter w h) 7 0 s).1 ++
      (DrawOp.streakRing (min w h * 0.35) ::
        (drawLoop (rainbowIter (min w h * 0.35)) 36 0
          (drawLoop (glowIter w h) 7 0 s).2).1) ++ [] := rfl

lemma drawStreakEffect14 (w h : ℚ) (pal : List String) (s : ℕ) :
    (drawStreakEffect w h pal 14 s).1 =
      (drawLoop (glowIter w h) 14 0 s).1 ++
      (DrawOp.streakRing (min w h * 0.35) ::
        (drawLoop (rainbowIter (min w h * 0.35)) 36 0
          (drawLoop (glowIter w h) 14 0 s).2).1) ++
      [DrawOp.diamond (min w h * 0.06)] := rfl

lemma glowLoop_any_gold (w h : ℚ) (k : ℕ) (hk : k ≠ 0) (i s : ℕ) :
    ((drawLoop (glowIter w h) k i s).1).any isGoldGlowOp = true := by
  apply all_any_of_ne_nil (drawLoop_all isGoldGlowOp _ (glowIter_gold w h) k i s)
  intro hnil
  have := drawLoop_length (glowIter w h) 1 (glowIter_len w h) k i s
  rw [hnil] at this
  simp at this
  exact hk this.symm

/-- **C8** — The streak option influences only layer 6: for any two
option values the traces of layers 1–5 (background, aurora, orbs,
geometry, stars) and the vignette are identical, and the streak-effect
layer draws from the PRNG state reached only after layers 1–5 have
consumed all of their draws. -/
theorem streak_affects_only_layer6 (w h : ℚ) (r : SleepRecord) (o1 o2 : RenderOptions) :
    (generate w h r o1).background = (generate w h r o2).background ∧
    (generate w h r o1).aurora = (generate w h r o2).aurora ∧
    (generate w h r o1).orbs = (generate w h r o2).orbs ∧
    (generate w h r o1).geometry = (generate w h r o2).geometry ∧
    (generate w h r o1).stars = (generate w h r o2).stars ∧
    (generate w h r o1).vignette = (generate w h r o2).vignette ∧
    (generate w h r o1).streakFx =
      (if o1.streak ≥ 3 then
        (drawStreakEffect w h (selectPalette r.bedtime) o1.streak
          (stateAfterLayers15 w h r)).1
       else []) :=
  ⟨rfl, rfl, rfl, rfl, rfl, rfl, rfl⟩

/-- **C9** — The bokeh-orb layer draws exactly `5 + floor(duration * 2.5)`
orbs (for the record's nonnegative sleep duration). -/
theorem orb_count (w h : ℚ) (r : SleepRecord) (o : RenderOptions) (hd : 0 ≤ r.duration) :
    countOrbOps (generate w h r o).orbs = 5 + (⌊r.duration * 2.5⌋).toNat := by
  obtain ⟨s2, e⟩ : ∃ s, (generate w h r o).orbs =
      (drawOrbs w h (selectPalette r.bedtime) r.duration (qualityOf r.duration) s).1 :=
    ⟨_, rfl⟩
  have hcount : countOrbOps (drawOrbs w h (selectPalette r.bedtime) r.duration
      (qualityOf r.duration) s2).1 = (5 + ⌊r.duration * 2.5⌋).toNat := by
    show countOrbOps (drawLoop (orbIter w h (selectPalette r.bedtime)
      (qualityOf r.duration)) ((5 + ⌊r.duration * 2.5⌋).toNat) 0 s2).1 = _
    rw [countOrbOps, drawLoop_countP isOrbOp _ 1
      (orbIter_count w h (selectPalette r.bedtime) (qualityOf r.duration)), one_mul]
  rw [e, hcount]
  have h0 : (0 : ℤ) ≤ ⌊r.duration * 2.5⌋ :=
    Int.floor_nonneg.mpr (mul_nonneg hd (by norm_num))
  omega

/-- Witness for `orb_count`: at `duration = 8` exactly 25 orbs are drawn. -/
theorem orb_count_witness : countOrbOps (generate 400 300 recDur8 ⟨0⟩).orbs = 25 := by
  have h := orb_count 400 300 recDur8 ⟨0⟩ (by norm_num [recDur8])
  rw [h]
  norm_num [recDur8]
  decide

/-- **C7** — Streak effects are gated by the fixed cumulative thresholds:
at `streak = 2` no gold glow, rainbow ring or diamond is drawn anywhere in
the render; at `streak = 3` gold glows appear but no rainbow ring and no
diamond; at `streak = 7` gold glows and the rainbow ring appear but no
diamond; at `streak = 14` all three streak effects are drawn. -/
theorem streak_gating (w h : ℚ) (r : SleepRecord) :
    (hasGoldGlow (generate w h r ⟨2⟩) = false ∧
     hasRainbowRing (generate w h r ⟨2⟩) = false ∧
     hasDiamond (generate w h r ⟨2⟩) = false) ∧
    (hasGoldGlow (generate w h r ⟨3⟩) = true ∧
     hasRainbowRing (generate w h r ⟨3⟩) = false ∧
     hasDiamond (generate w h r ⟨3⟩) = false) ∧
    (hasGoldGlow (generate w h r ⟨7⟩) = true ∧
     hasRainbowRing (generate w h r ⟨7⟩) = true ∧
     hasDiamond (generate w h r ⟨7⟩) = false) ∧
    (hasGoldGlow (generate w h r ⟨14⟩) = true ∧
     hasRainbowRing (generate w h r ⟨14⟩) = true ∧
     hasDiamond (generate w h r ⟨14⟩) = true) := by
  have hqg : ∀ op, notStreakOp op = true → isGoldGlowOp op = false :=
    fun op hop => (notStreak_spec hop).1
  have hqr : ∀ op, notStreakOp op = true → isRainbowOp op = false :=
    fun op hop => (notStreak_spec hop).2.1
  have hqd : ∀ op, notStreakOp op = true → isDiamondOp op = false :=
    fun op hop => (notStreak_spec hop).2.2
  obtain ⟨s3, e3⟩ : ∃ s, (generate w h r ⟨3⟩).streakFx =
      (drawStreakEffect w h (selectPalette r.bedtime) 3 s).1 := ⟨_, rfl⟩
  obtain ⟨s7, e7⟩ : ∃ s, (generate w h r ⟨7⟩).streakFx =
      (drawStreakEffect w h (selectPalette r.bedtime) 7 s).1 := ⟨_, rfl⟩
  obtain ⟨s14, e14⟩ : ∃ s, (generate w h r ⟨14⟩).streakFx =
      (drawStreakEffect w h (selectPalette r.bedtime) 14 s).1 := ⟨_, rfl⟩
  refine ⟨⟨?_, ?_, ?_⟩, ⟨?_, ?_, ?_⟩, ⟨?_, ?_, ?_⟩, ⟨?_, ?_, ?_⟩⟩
  · rw [hasGoldGlow, generate_any_streakOnly isGoldGlowOp hqg]
    rfl
  · rw [hasRainbowRing, generate_any_streakOnly isRainbowOp hqr]
    rfl
  · rw [hasDiamond, generate_any_streakOnly isDiamondOp hqd]
    rfl
  · rw [hasGoldGlow, generate_any_streakOnly isGoldGlowOp hqg, e3, drawStreakEffect3,
      List.append_nil, List.append_nil]
    exact glowLoop_any_gold w h 3 (by decide) 0 s3
  · rw [hasRainbowRing, generate_any_streakOnly isRainbowOp hqr, e3, drawStreakEffect3,
      List.append_nil, List.append_nil]
    exact all_imp_any_eq_false gold_not_rainbow
      (drawLoop_all isGoldGlowOp (glowIter w h) (glowIter_gold w h) 3 0 s3)
  · rw [hasDiamond, generate_any_streakOnly isDiamondOp hqd, e3, drawStreakEffect3,
      List.append_nil, List.append_nil]
    exact all_imp_any_eq_false gold_not_diamond
      (drawLoop_all isGoldGlowOp (glowIter w h) (glowIter_gold w h) 3 0 s3)
  · rw [hasGoldGlow, generate_any_streakOnly isGoldGlowOp hqg, e7, drawStreakEffect7,
      List.append_nil, List.any_append, glowLoop_any_gold w h 7 (by decide) 0 s7]
    rfl
  · rw [hasRainbowRing, generate_any_streakOnly isRainbowOp hqr, e7, drawStreakEffect7]
    simp [List.any_append, List.any_cons, isRainbowOp]
  · rw [hasDiamond, generate_any_streakOnly isDiamondOp hqd, e7, drawStreakEffect7,
      List.append_nil, List.any_append, List.any_cons,
      all_imp_any_eq_false gold_not_diamond
        (drawLoop_all isGoldGlowOp (glowIter w h) (glowIter_gold w h) 7 0 s7),
      all_imp_any_eq_false rainbow_not_diamond
        (drawLoop_all isRainbowOp (rainbowIter (min w h * 0.35))
          (rainbowIter_rainbow (min w h * 0.35)) 36 0 _)]
    rfl
  · rw [hasGoldGlow, generate_any_streakOnly isGoldGlowOp hqg, e14, drawStreakEffect14,
      List.any_append, List.any_append, glowLoop_any_gold w h 14 (by decide) 0 s14]
    rfl
  · rw [hasRainbowRing, generate_any_streakOnly isRainbowOp hqr, e14, drawStreakEffect14]
    simp [List.any_append, List.any_cons, isRainbowOp]
  · rw [hasDiamond, generate_any_streakOnly isDiamondOp hqd, e14, drawStreakEffect14]
    simp [List.any_append, List.any_cons, isDiamondOp]

end SleepArt
